import Mathlib

/-!
# Verification of the weekly KPI report aggregator

Shallow embedding of `weekly_report_app.py`: the KPI aggregation logic
(Slide 3 snapshot, Slide 4 quarterly, Slide 5 yearly) is translated into
executable Lean definitions over exact rational arithmetic, and the spec
claims about it are settled as theorems.

Modelling conventions:
* Monetary fields, already coerced by `pd.to_numeric(...).fillna(0)`, are ℚ.
* `Visit Date` after `pd.to_datetime(..., errors="coerce")` is `Option Date`
  (`none` = NaT); `Visit Status` read with `dtype=str` is `Option String`
  (`none` = NaN).  In pandas, `NaN.str.lower() == "claim created"` is `False`
  and `!=` is `True`, which the `isClaimCreated` embedding reproduces.
* Python's `round` (used at two decimals and for days-in-AR) is modelled as
  round-half-up `⌊q + 1/2⌋`; no claim depends on tie behaviour.
* `datetime.today()` is an explicit `now : Date` parameter (date resolution).
* Each division site of the source has the shape `num / den if g else s`.
  Every row builder returns, besides the rendered cells, a Boolean flag that
  records whether some division at a site was actually performed (`g` held)
  with a zero denominator — i.e. was *not* replaced by the sentinel.  With
  pandas the sums are numpy floats, so such a division yields `inf` with a
  warning rather than raising; either way it is not the sentinel.
-/

/-- A calendar date (the date part of a pandas timestamp / `datetime`). -/
structure Date where
  year : Int
  month : Nat
  day : Nat
deriving DecidableEq, Repr

/-- Strict `<` on dates, lexicographic on (year, month, day); agrees with
`datetime` comparison for valid dates. -/
def dateLt (a b : Date) : Bool :=
  decide (a.year < b.year ∨ (a.year = b.year ∧
    (a.month < b.month ∨ (a.month = b.month ∧ a.day < b.day))))

/-- `≤` on dates. -/
def dateLe (a b : Date) : Bool :=
  dateLt a b || decide (a = b)

/-- Gregorian leap year, as in Python's calendar arithmetic. -/
def isLeap (y : Int) : Bool :=
  y % 4 == 0 && (y % 100 != 0 || y % 400 == 0)

/-- Length of a month. -/
def daysInMonth (y : Int) (m : Nat) : Nat :=
  if m = 2 then (if isLeap y then 29 else 28)
  else if m = 4 ∨ m = 6 ∨ m = 9 ∨ m = 11 then 30
  else 31

/-- Day number of a civil date (days since 1970-01-01, standard
days-from-civil algorithm); models `datetime` subtraction `.days`. -/
def toRataDie (d : Date) : Int :=
  let y : Int := if d.month ≤ 2 then d.year - 1 else d.year
  let era : Int := (if y ≥ 0 then y else y - 399) / 400
  let yoe : Int := y - era * 400
  let mp : Nat := (d.month + 9) % 12
  let doy : Int := (153 * (mp : Int) + 2) / 5 + (d.day : Int) - 1
  let doe : Int := yoe * 365 + yoe / 4 - yoe / 100 + doy
  era * 146097 + doe - 719468

/-- `relativedelta(months := n)` on a date: advance the month, clamping the
day to the target month's length (the source only applies it to day 1). -/
def addMonths (d : Date) (n : Nat) : Date :=
  let m0 := d.month - 1 + n
  let y := d.year + (m0 / 12 : Nat)
  let m := m0 % 12 + 1
  ⟨y, m, min d.day (daysInMonth y m)⟩

/-- `- pd.Timedelta(days=1)`: the previous calendar day. -/
def prevDay (d : Date) : Date :=
  if d.day > 1 then ⟨d.year, d.month, d.day - 1⟩
  else if d.month > 1 then ⟨d.year, d.month - 1, daysInMonth d.year (d.month - 1)⟩
  else ⟨d.year - 1, 12, 31⟩

/-- Python's `round` to an integer, modelled as round-half-up `⌊q + 1/2⌋`. -/
def qround (q : ℚ) : ℤ := ⌊q + 1/2⌋

/-- Left-pad a two-digit fractional part, as `"%02d"`. -/
def pad2 (n : Nat) : String :=
  if n < 10 then "0" ++ toString n else toString n

/-- Python `f"{x:.2f}"`: fixed-point rendering with exactly two decimals. -/
def fmt2 (q : ℚ) : String :=
  let n : Int := qround (q * 100)
  let sign := if n < 0 then "-" else ""
  let m := n.natAbs
  sign ++ toString (m / 100) ++ "." ++ pad2 (m % 100)

/-- Split a reversed digit list into groups of three (for `,` grouping). -/
def chunk3 : List Char → List (List Char)
  | [] => []
  | a :: b :: c :: rest => [a, b, c] :: chunk3 rest
  | l => [l]

/-- Insert thousands separators into a digit string. -/
def groupThousands (s : String) : String :=
  String.mk (((chunk3 s.data.reverse).intersperse [',']).flatten.reverse)

/-- Python `f"{x:,.2f}"`: two decimals with thousands separators. -/
def fmtComma2 (q : ℚ) : String :=
  let n : Int := qround (q * 100)
  let sign := if n < 0 then "-" else ""
  let m := n.natAbs
  sign ++ groupThousands (toString (m / 100)) ++ "." ++ pad2 (m % 100)

/-- Python `f"${x:,.2f}"` as used for every monetary cell. -/
def currency (q : ℚ) : String := "$" ++ fmtComma2 q

/-- One input row after the Input Normalizer's coercions (§4.1):
date `errors="coerce"`, numerics `errors="coerce").fillna(0)`. -/
structure VisitRecord where
  visitId : String
  visitDate : Option Date
  visitStatus : Option String
  charge : ℚ
  expected : ℚ
  primaryPayment : ℚ
  secondaryPayment : ℚ
  tertiaryPayment : ℚ
  patientPayment : ℚ
  balance : ℚ
deriving DecidableEq, Repr

/-- Python `str.lower()`, character by character. -/
def strLower (s : String) : String :=
  String.mk (s.data.map Char.toLower)

/-- Python `str.split()` (no separator): split on runs of spaces,
dropping empty pieces. -/
def splitWS : List Char → List Char → List String
  | [], acc => if acc.isEmpty then [] else [String.mk acc.reverse]
  | c :: rest, acc =>
    if c = ' ' then
      if acc.isEmpty then splitWS rest []
      else String.mk acc.reverse :: splitWS rest []
    else splitWS rest (c :: acc)

/-- `s.split()` on a string. -/
def pySplit (s : String) : List String := splitWS s.data []

/-- Accumulate the value of a decimal digit string. -/
def digitsValAux : List Char → Nat → Option Nat
  | [], acc => some acc
  | c :: rest, acc =>
    if c.isDigit then digitsValAux rest (10 * acc + (c.toNat - 48)) else none

/-- Value of a non-empty decimal digit string, `none` on any non-digit. -/
def digitsVal : List Char → Option Nat
  | [] => none
  | l => digitsValAux l 0

/-- Python `int(s)`: optional sign followed by digits, failure (the raised
`ValueError`) as `none`. -/
def pyInt (s : String) : Option Int :=
  match s.data with
  | [] => none
  | '-' :: l => (digitsVal l).map (fun n => -(n : Int))
  | '+' :: l => (digitsVal l).map (fun n => (n : Int))
  | l => (digitsVal l).map (fun n => (n : Int))

/-- `df["Visit Status"].str.lower() == "claim created"` for one row;
a missing status (pandas NaN) compares unequal. -/
def isClaimCreated (s : Option String) : Bool :=
  match s with
  | none => false
  | some t => strLower t == "claim created"

/-- `df["Charge"].sum()`. -/
def totalCharges (rs : List VisitRecord) : ℚ :=
  (rs.map (fun r => r.charge)).sum

/-- `df["Expected"].sum()`. -/
def totalExpected (rs : List VisitRecord) : ℚ :=
  (rs.map (fun r => r.expected)).sum

/-- `df[["Primary Payment", ..., "Patient Payment"]].sum().sum()`. -/
def totalPayments (rs : List VisitRecord) : ℚ :=
  (rs.map (fun r =>
    r.primaryPayment + r.secondaryPayment + r.tertiaryPayment + r.patientPayment)).sum

/-- `df["Balance"].sum()`. -/
def totalBalance (rs : List VisitRecord) : ℚ :=
  (rs.map (fun r => r.balance)).sum

/-- `df[df["Visit Status"].str.lower() == "claim created"]["Charge"].sum()`. -/
def submittedCharges (rs : List VisitRecord) : ℚ :=
  ((rs.filter (fun r => isClaimCreated r.visitStatus)).map (fun r => r.charge)).sum

/-- `df[df["Visit Status"].str.lower() == "claim created"]["Balance"].sum()`. -/
def billedAR (rs : List VisitRecord) : ℚ :=
  ((rs.filter (fun r => isClaimCreated r.visitStatus)).map (fun r => r.balance)).sum

/-- `df[df["Visit Status"].str.lower() != "claim created"]["Balance"].sum()`;
the NaN status lands here, since `NaN != "claim created"` is `True`. -/
def unbilledAR (rs : List VisitRecord) : ℚ :=
  ((rs.filter (fun r => !isClaimCreated r.visitStatus)).map (fun r => r.balance)).sum

/-- The fixed constant of line 36: `denial_resolution = "85%"`. -/
def denial_resolution : String := "85%"

/-- One output-table cell: a rendered string, a row count, or an integer
(year / rounded days-in-AR), matching the heterogeneous Python lists. -/
inductive Cell where
  | str (s : String)
  | nat (n : Nat)
  | int (i : Int)
deriving DecidableEq, Repr

/-- Lines 84–87: quarter label of a visit date, `None` for NaT;
`quarter = (month - 1) // 3 + 1`, label `f"{year} Q{quarter}"`. -/
def get_quarter_label (d : Option Date) : Option String :=
  match d with
  | none => none
  | some d => some (toString d.year ++ " Q" ++ toString ((d.month - 1) / 3 + 1))

/-- Lines 91–98: parse a quarter label back into its first and last day.
`int(year)` / `int(q[1])` raise on malformed labels, modelled as `none`
(never hit: the only arguments are the seven target labels). -/
def get_quarter_dates (q_label : String) : Option (Date × Date) :=
  match pySplit q_label with
  | [ys, qs] =>
    match pyInt ys, qs.data.get? 1 with
    | some year, some c =>
      if c.isDigit then
        let quarter : Nat := c.toNat - 48
        let start_month := (quarter - 1) * 3 + 1
        let start_date : Date := ⟨year, start_month, 1⟩
        let end_date := prevDay (addMonths start_date 3)
        some (start_date, end_date)
      else none
    | _, _ => none
  | _ => none

/-- Line 120: `days_in_q = (end_date - start_date).days + 1`. -/
def days_in_quarter (q_label : String) : Int :=
  match get_quarter_dates q_label with
  | some (s, e) => toRataDie e - toRataDie s + 1
  | none => 0

/-- Line 104: `q_df = df[df["Quarter"] == q]` (NaT rows have label `None`,
which never equals a label string). -/
def quarterFilter (rs : List VisitRecord) (q : String) : List VisitRecord :=
  rs.filter (fun r => get_quarter_label r.visitDate == some q)

/-- Line 100. -/
def target_quarters : List String :=
  ["2024 Q1", "2024 Q2", "2024 Q3", "2024 Q4", "2025 Q1", "2025 Q2", "2025 Q3"]

/-- Lines 105–134: one Slide 4 row built from the quarter's record subset
`q_df`, plus the zero-denominator-division flag (see file header). -/
def quarterRowOf (q_df : List VisitRecord) (q : String) : List Cell × Bool :=
  if q_df.isEmpty then ([Cell.str q] ++ List.replicate 12 (Cell.str "N/A"), false)
  else
    let visits := q_df.length
    let charges := totalCharges q_df
    let expected := totalExpected q_df
    let payments := totalPayments q_df
    let submitted_charges := submittedCharges q_df
    let charges_submitted_pct :=
      if charges ≠ 0 then fmt2 (submitted_charges / charges * 100) ++ "%" else "0.00%"
    let gcr := if charges ≠ 0 then fmt2 (payments / charges * 100) ++ "%" else "0.00%"
    let ncr := if expected ≠ 0 then fmt2 (payments / expected * 100) ++ "%" else "0.00%"
    let days_in_q : Int := days_in_quarter q
    let avg_daily_charges := if charges ≠ 0 then charges / (days_in_q : ℚ) else 0
    let days_in_ar : Int :=
      if avg_daily_charges ≠ 0 then qround (totalBalance q_df / avg_daily_charges) else 0
    let billed_ar := billedAR q_df
    let unbilled_ar := unbilledAR q_df
    let total_ar := billed_ar + unbilled_ar
    let billed_pct := if total_ar ≠ 0 then fmt2 (billed_ar / total_ar * 100) ++ "%" else "0.00%"
    let unbilled_pct := if total_ar ≠ 0 then fmt2 (unbilled_ar / total_ar * 100) ++ "%" else "0.00%"
    let dbz :=
      decide (charges ≠ 0 ∧ charges = 0) || decide (charges ≠ 0 ∧ charges = 0)
      || decide (expected ≠ 0 ∧ expected = 0)
      || decide (charges ≠ 0 ∧ (days_in_q : ℚ) = 0)
      || decide (avg_daily_charges ≠ 0 ∧ avg_daily_charges = 0)
      || decide (total_ar ≠ 0 ∧ total_ar = 0) || decide (total_ar ≠ 0 ∧ total_ar = 0)
    ([Cell.str q, Cell.nat visits, Cell.str (currency charges),
      Cell.str charges_submitted_pct, Cell.str (currency payments), Cell.str gcr,
      Cell.str ncr, Cell.int days_in_ar, Cell.str (currency billed_ar),
      Cell.str billed_pct, Cell.str (currency unbilled_ar), Cell.str unbilled_pct,
      Cell.str denial_resolution], dbz)

/-- Lines 103–134 for one target quarter of the loop. -/
def quarterRowFull (rs : List VisitRecord) (q : String) : List Cell × Bool :=
  quarterRowOf (quarterFilter rs q) q

/-- Lines 100–140: the Slide 4 (quarterly) table body. -/
def slide4_data (rs : List VisitRecord) : List (List Cell) :=
  target_quarters.map (fun q => (quarterRowFull rs q).1)

/-- Whether any division in the Slide 4 loop had a zero denominator. -/
def slide4_dbz (rs : List VisitRecord) : Bool :=
  target_quarters.any (fun q => (quarterRowFull rs q).2)

/-- Line 151: `df_y = df[(df["Visit Date"] >= start) & (df["Visit Date"] < end)]`
with `start = Jan 1 year` and `end = Jan 1 (year+1)`, or `datetime.today()`
for 2025; NaT rows fail both comparisons. -/
def yearFilter (rs : List VisitRecord) (year : Int) (now : Date) : List VisitRecord :=
  let start_date : Date := ⟨year, 1, 1⟩
  let end_date : Date := if year < 2025 then ⟨year + 1, 1, 1⟩ else now
  rs.filter (fun r =>
    match r.visitDate with
    | none => false
    | some d => dateLe start_date d && dateLt d end_date)

/-- Lines 152–174: one Slide 5 row built from the year's record subset
`df_y` and the year's day count, plus the zero-denominator flag. -/
def yearRowOf (df_y : List VisitRecord) (year : Int) (days_in_year : Int) :
    List Cell × Bool :=
  if df_y.isEmpty then ([Cell.int year] ++ List.replicate 10 (Cell.str "N/A"), false)
  else
    let visits := df_y.length
    let charges := totalCharges df_y
    let expected := totalExpected df_y
    let payments := totalPayments df_y
    let submitted_charges := submittedCharges df_y
    let billed_ar := billedAR df_y
    let unbilled_ar := unbilledAR df_y
    let charges_submitted_pct :=
      if charges ≠ 0 then fmt2 (submitted_charges / charges * 100) ++ "%" else "0.00%"
    let gcr := if charges ≠ 0 then fmt2 (payments / charges * 100) ++ "%" else "0.00%"
    let ncr := if expected ≠ 0 then fmt2 (payments / expected * 100) ++ "%" else "0.00%"
    let avg_daily_charges := if charges ≠ 0 then charges / (days_in_year : ℚ) else 0
    let days_in_ar : Int :=
      if avg_daily_charges ≠ 0 then qround ((billed_ar + unbilled_ar) / avg_daily_charges)
      else 0
    let dbz :=
      decide (charges ≠ 0 ∧ charges = 0) || decide (charges ≠ 0 ∧ charges = 0)
      || decide (expected ≠ 0 ∧ expected = 0)
      || decide (charges ≠ 0 ∧ (days_in_year : ℚ) = 0)
      || decide (avg_daily_charges ≠ 0 ∧ avg_daily_charges = 0)
    ([Cell.int year, Cell.nat visits, Cell.str (currency charges),
      Cell.str charges_submitted_pct, Cell.str (currency payments), Cell.str gcr,
      Cell.str ncr, Cell.int days_in_ar, Cell.str (currency billed_ar),
      Cell.str (currency unbilled_ar), Cell.str denial_resolution], dbz)

/-- Lines 146–174 for one target year of the loop; line 149 selects
`days_in_year` (365 for 2023, 366 for 2024, the 2025 override otherwise). -/
def yearRowFull (rs : List VisitRecord) (now : Date) (days_2025 : Int) (year : Int) :
    List Cell × Bool :=
  yearRowOf (yearFilter rs year now) year
    (if year = 2023 then 365 else if year = 2024 then 366 else days_2025)

/-- Lines 145–179: the Slide 5 (yearly) table body. -/
def slide5_data (rs : List VisitRecord) (now : Date) (days_2025 : Int) :
    List (List Cell) :=
  ([2023, 2024, 2025] : List Int).map (fun y => (yearRowFull rs now days_2025 y).1)

/-- Whether any division in the Slide 5 loop had a zero denominator. -/
def slide5_dbz (rs : List VisitRecord) (now : Date) (days_2025 : Int) : Bool :=
  ([2023, 2024, 2025] : List Int).any (fun y => (yearRowFull rs now days_2025 y).2)

/-- Lines 54–79: the Slide 3 snapshot table (rows of label/value pairs),
plus the zero-denominator flag for its division sites. -/
def kpi_data (rs : List VisitRecord) (visits_input ar_31_60 ar_61_90 : String) :
    List (String × Cell) × Bool :=
  let charges := totalCharges rs
  let expected := totalExpected rs
  let payments := totalPayments rs
  let submitted_charges := submittedCharges rs
  let charges_submitted_pct_val :=
    if charges ≠ 0 then submitted_charges / charges * 100 else 0
  let charges_submitted_pct := fmt2 charges_submitted_pct_val ++ "%"
  let gcr := if charges ≠ 0 then fmt2 (payments / charges * 100) ++ "%" else "0.00%"
  let ncr_val := if expected ≠ 0 then payments / expected * 100 else 0
  let ncr := fmt2 ncr_val ++ "%"
  let avg_daily_charges := if charges ≠ 0 then charges / 365 else 0
  let days_in_ar : Int :=
    if avg_daily_charges ≠ 0 then qround (totalBalance rs / avg_daily_charges) else 0
  let dbz :=
    decide (charges ≠ 0 ∧ charges = 0) || decide (charges ≠ 0 ∧ charges = 0)
    || decide (expected ≠ 0 ∧ expected = 0)
    || decide (charges ≠ 0 ∧ (365 : ℚ) = 0)
    || decide (avg_daily_charges ≠ 0 ∧ avg_daily_charges = 0)
  ([("Visits", Cell.str visits_input),
    ("Charges", Cell.str (currency charges)),
    ("Charges Submitted (%)", Cell.str charges_submitted_pct),
    ("Payments", Cell.str (currency payments)),
    ("Gross Collection Rate (%)", Cell.str gcr),
    ("Net Collection Rate (%)", Cell.str ncr),
    ("Days in AR (DAR)", Cell.int days_in_ar),
    ("A/R (31–60 Days)", Cell.str ar_31_60),
    ("A/R (61–90 Days)", Cell.str ar_61_90),
    ("Denial vs Resolution", Cell.str denial_resolution)], dbz)

/-- Lines 31–34: the elapsed-days-in-2025 scalar — `int(days_2025_input)`,
falling back to `(datetime.today() - datetime(2025, 1, 1)).days` when the
override does not parse. -/
def days_2025_of (days_2025_input : String) (now : Date) : Int :=
  match pyInt days_2025_input with
  | some n => n
  | none => toRataDie now - toRataDie ⟨2025, 1, 1⟩

/-- The three output tables of one invocation. -/
structure Report where
  kpi : List (String × Cell)
  slide4 : List (List Cell)
  slide5 : List (List Cell)
  dbz : Bool

/-- Lines 27–179: the whole aggregation as a pure function of the record
set, the four manual inputs, and the invocation time. -/
def generateReport (rs : List VisitRecord)
    (visits_input ar_31_60 ar_61_90 days_2025_input : String) (now : Date) : Report :=
  let days_2025 := days_2025_of days_2025_input now
  let k := kpi_data rs visits_input ar_31_60 ar_61_90
  { kpi := k.1
    slide4 := slide4_data rs
    slide5 := slide5_data rs now days_2025
    dbz := k.2 || slide4_dbz rs || slide5_dbz rs now days_2025 }

/-- Spec §8: round a value to two decimal digits. -/
def round2 (q : ℚ) : ℚ := (qround (q * 100) : ℚ) / 100

/-- Spec §3/§8, stated from the spec's words: a percentage is
`num / den * 100` rounded to and formatted with exactly two decimals, and
exactly `"0.00%"` when the denominator is zero. -/
def pctSpec (num den : ℚ) : String :=
  if den = 0 then "0.00%" else fmt2 (round2 (num / den * 100)) ++ "%"

/-- Concrete record matching the spec §8 example: 2024-02-15, status
"Claim Created", charge 100, expected 80, payments 90, balance 10. -/
def sampleQ1 : VisitRecord :=
  ⟨"v1", some ⟨2024, 2, 15⟩, some "Claim Created", 100, 80, 90, 0, 0, 0, 10⟩

/-- A second 2024 Q1 record with the same `Visit ID` as `sampleQ1`. -/
def sampleQ1dup : VisitRecord :=
  ⟨"v1", some ⟨2024, 3, 1⟩, none, 5, 0, 0, 0, 0, 0, 2⟩

/-- A record whose `Visit Date` failed to parse (NaT). -/
def sampleNullDate : VisitRecord :=
  ⟨"nd", none, some "Claim Created", 100, 80, 90, 0, 0, 0, 10⟩

/-- A record whose `Visit Status` is missing (NaN). -/
def sampleNullStatus : VisitRecord :=
  ⟨"ns", some ⟨2024, 2, 15⟩, none, 1, 2, 3, 4, 5, 6, 7⟩

/-- A 2025 record with nonzero charge and missing status. -/
def sample2025 : VisitRecord :=
  ⟨"v0", some ⟨2025, 2, 1⟩, none, 100, 0, 0, 0, 0, 0, 0⟩

/-- The status partition is exhaustive and exclusive: billed plus unbilled
balance is the plain balance sum, on any record list. -/
theorem ar_partition (rs : List VisitRecord) :
    billedAR rs + unbilledAR rs = totalBalance rs := by
  induction rs with
  | nil => simp [billedAR, unbilledAR, totalBalance]
  | cons r t ih =>
    by_cases h : isClaimCreated r.visitStatus <;>
      simp [billedAR, unbilledAR, totalBalance, List.filter_cons, h] at ih ⊢ <;>
      linarith

/-- C6: for every record subset used by a period row, `billedAR + unbilledAR`
equals the sum of `Balance` over that subset — in particular on every quarter
subset (the quarterly days-in-AR numerator is the plain balance sum) and every
year subset (the yearly numerator is `billedAR + unbilledAR`), so the two
numerator forms agree. -/
theorem c6_ar_partition (rs : List VisitRecord) (q : String) (y : Int) (now : Date) :
    billedAR rs + unbilledAR rs = totalBalance rs
    ∧ billedAR (quarterFilter rs q) + unbilledAR (quarterFilter rs q)
        = totalBalance (quarterFilter rs q)
    ∧ billedAR (yearFilter rs y now) + unbilledAR (yearFilter rs y now)
        = totalBalance (yearFilter rs y now) :=
  ⟨ar_partition rs, ar_partition (quarterFilter rs q), ar_partition (yearFilter rs y now)⟩

/-- C8: a record with missing `Visit Status` is never classified as
"claim created": it is excluded from the submitted-charges and billed-AR
sums and its balance is counted in unbilled AR — these three sums are
what every table derives its status-split figures from. -/
theorem c8_missing_status (rs : List VisitRecord) (r : VisitRecord)
    (h : r.visitStatus = none) :
    isClaimCreated r.visitStatus = false
    ∧ submittedCharges (r :: rs) = submittedCharges rs
    ∧ billedAR (r :: rs) = billedAR rs
    ∧ unbilledAR (r :: rs) = r.balance + unbilledAR rs := by
  refine ⟨by simp [isClaimCreated, h], ?_, ?_, ?_⟩ <;>
    simp [submittedCharges, billedAR, unbilledAR, List.filter_cons, isClaimCreated, h]

/-- Witness for C8 at a concrete record with missing status. -/
theorem c8_witness :
    isClaimCreated sampleNullStatus.visitStatus = false
    ∧ submittedCharges [sampleNullStatus] = submittedCharges []
    ∧ billedAR [sampleNullStatus] = billedAR []
    ∧ unbilledAR [sampleNullStatus] = sampleNullStatus.balance + unbilledAR [] :=
  c8_missing_status [] sampleNullStatus rfl

/-- Cons-invariance of the quarter filter for a dateless record. -/
theorem quarterFilter_cons_none (rs : List VisitRecord) (r : VisitRecord)
    (h : r.visitDate = none) (q : String) :
    quarterFilter (r :: rs) q = quarterFilter rs q := by
  have hpr : (get_quarter_label r.visitDate == some q) = false := by
    rw [h]; rfl
  simp [quarterFilter, List.filter_cons, hpr]

/-- Cons-invariance of the year filter for a dateless record. -/
theorem yearFilter_cons_none (rs : List VisitRecord) (r : VisitRecord)
    (h : r.visitDate = none) (y : Int) (now : Date) :
    yearFilter (r :: rs) y now = yearFilter rs y now := by
  simp only [yearFilter, List.filter_cons, h]
  rfl

/-- C7: a record with absent/unparseable `Visit Date` belongs to no quarter
bucket and no year bucket — the Quarterly and Yearly tables are unchanged by
its presence — while every Snapshot aggregate still receives its monetary
fields (its charge reaching the submitted sum exactly per its status). -/
theorem c7_null_date (rs : List VisitRecord) (r : VisitRecord) (now : Date)
    (d : Int) (h : r.visitDate = none) :
    slide4_data (r :: rs) = slide4_data rs
    ∧ slide5_data (r :: rs) now d = slide5_data rs now d
    ∧ totalCharges (r :: rs) = r.charge + totalCharges rs
    ∧ totalExpected (r :: rs) = r.expected + totalExpected rs
    ∧ totalPayments (r :: rs) = r.primaryPayment + r.secondaryPayment
        + r.tertiaryPayment + r.patientPayment + totalPayments rs
    ∧ totalBalance (r :: rs) = r.balance + totalBalance rs
    ∧ submittedCharges (r :: rs)
        = (if isClaimCreated r.visitStatus then r.charge else 0) + submittedCharges rs := by
  refine ⟨?_, ?_, by simp [totalCharges], by simp [totalExpected],
    by simp [totalPayments], by simp [totalBalance], ?_⟩
  · simp [slide4_data, quarterRowFull, quarterFilter_cons_none rs r h]
  · simp [slide5_data, yearRowFull, yearFilter_cons_none rs r h]
  · by_cases hc : isClaimCreated r.visitStatus <;>
      simp [submittedCharges, List.filter_cons, hc]

/-- Witness for C7 at a concrete dateless record. -/
theorem c7_witness :
    slide4_data [sampleNullDate] = slide4_data []
    ∧ slide5_data [sampleNullDate] ⟨2025, 6, 1⟩ 151 = slide5_data [] ⟨2025, 6, 1⟩ 151
    ∧ totalCharges [sampleNullDate] = sampleNullDate.charge + totalCharges []
    ∧ totalExpected [sampleNullDate] = sampleNullDate.expected + totalExpected []
    ∧ totalPayments [sampleNullDate] = sampleNullDate.primaryPayment
        + sampleNullDate.secondaryPayment + sampleNullDate.tertiaryPayment
        + sampleNullDate.patientPayment + totalPayments []
    ∧ totalBalance [sampleNullDate] = sampleNullDate.balance + totalBalance []
    ∧ submittedCharges [sampleNullDate]
        = (if isClaimCreated sampleNullDate.visitStatus then sampleNullDate.charge else 0)
          + submittedCharges [] :=
  c7_null_date [] sampleNullDate ⟨2025, 6, 1⟩ 151 rfl

/-- The first cell of a quarterly row is always the quarter label. -/
theorem quarterRow_head (s : List VisitRecord) (q : String) :
    ((quarterRowOf s q).1).head? = some (Cell.str q) := by
  by_cases h : s.isEmpty <;> simp [quarterRowOf, h]

/-- The first cell of a yearly row is always the year. -/
theorem yearRow_head (s : List VisitRecord) (y dy : Int) :
    ((yearRowOf s y dy).1).head? = some (Cell.int y) := by
  by_cases h : s.isEmpty <;> simp [yearRowOf, h]

/-- C4: the Quarterly table has exactly 7 rows headed, in order, by the fixed
labels 2024 Q1 … 2025 Q3, and the Yearly table exactly 3 rows headed by
2023, 2024, 2025 — for every input record set. -/
theorem c4_fixed_rows (rs : List VisitRecord) (now : Date) (d : Int) :
    (slide4_data rs).length = 7
    ∧ (slide4_data rs).map List.head? = target_quarters.map (fun q => some (Cell.str q))
    ∧ (slide5_data rs now d).length = 3
    ∧ (slide5_data rs now d).map List.head?
        = [some (Cell.int 2023), some (Cell.int 2024), some (Cell.int 2025)] := by
  refine ⟨by simp [slide4_data, target_quarters], ?_, by simp [slide5_data], ?_⟩
  · simp [slide4_data, target_quarters, quarterRowFull, quarterRow_head]
  · simp [slide5_data, yearRowFull, yearRow_head]

/-- A quarterly row either ends with the denial constant (data present) or is
the all-sentinel row (empty quarter). -/
theorem quarterRow_last (s : List VisitRecord) (q : String) :
    ((quarterRowOf s q).1).getLast? = some (Cell.str denial_resolution)
    ∨ (quarterRowOf s q).1 = Cell.str q :: List.replicate 12 (Cell.str "N/A") := by
  by_cases h : s.isEmpty
  · right; simp [quarterRowOf, h]
  · left; simp [quarterRowOf, h, List.getLast?]

/-- A yearly row either ends with the denial constant or is the all-sentinel
row. -/
theorem yearRow_last (s : List VisitRecord) (y dy : Int) :
    ((yearRowOf s y dy).1).getLast? = some (Cell.str denial_resolution)
    ∨ (yearRowOf s y dy).1 = Cell.int y :: List.replicate 10 (Cell.str "N/A") := by
  by_cases h : s.isEmpty
  · right; simp [yearRowOf, h]
  · left; simp [yearRowOf, h, List.getLast?]

/-- C2 (amended): the denial-vs-resolution value is the single fixed constant
`"85%"`; it appears as the Snapshot's tenth row and as the final cell of every
Quarterly and Yearly row built from at least one matching record — but a row
for an empty period carries the `"N/A"` sentinel in that column instead. -/
theorem c2_denial_constant (rs : List VisitRecord) (v a1 a2 : String)
    (now : Date) (d : Int) :
    (kpi_data rs v a1 a2).1.get? 9
        = some ("Denial vs Resolution", Cell.str denial_resolution)
    ∧ (∀ row ∈ slide4_data rs,
        row.getLast? = some (Cell.str denial_resolution)
        ∨ ∃ q, row = Cell.str q :: List.replicate 12 (Cell.str "N/A"))
    ∧ (∀ row ∈ slide5_data rs now d,
        row.getLast? = some (Cell.str denial_resolution)
        ∨ ∃ y, row = Cell.int y :: List.replicate 10 (Cell.str "N/A")) := by
  refine ⟨rfl, ?_, ?_⟩
  · intro row hrow
    simp only [slide4_data, List.mem_map] at hrow
    obtain ⟨q, _, rfl⟩ := hrow
    rcases quarterRow_last (quarterFilter rs q) q with h | h
    · exact Or.inl h
    · exact Or.inr ⟨q, h⟩
  · intro row hrow
    simp only [slide5_data, List.mem_map] at hrow
    obtain ⟨y, _, rfl⟩ := hrow
    rcases yearRow_last (yearFilter rs y now) y _ with h | h
    · exact Or.inl h
    · exact Or.inr ⟨y, h⟩

/-- C2 counterexample: on an empty record set the first Quarterly row is the
2024 Q1 sentinel row, whose final (denial-vs-resolution) cell is `"N/A"`,
not the constant `"85%"` — so the denial value is *not* identical in rows of
empty periods, contrary to the claim as stated. -/
theorem c2_counterexample :
    (slide4_data []).get? 0
      = some (Cell.str "2024 Q1" :: List.replicate 12 (Cell.str "N/A"))
    ∧ (Cell.str "2024 Q1" :: List.replicate 12 (Cell.str "N/A")).getLast?
      = some (Cell.str "N/A")
    ∧ Cell.str "N/A" ≠ Cell.str denial_resolution := by
  refine ⟨by decide, by decide, by decide⟩

/-- Witness for C2 (amended), exercising the membership hypothesis on the
first Quarterly row of a populated table. -/
theorem c2_witness :
    ((quarterRowFull [sampleQ1] "2024 Q1").1).getLast?
        = some (Cell.str denial_resolution)
    ∨ ∃ q, (quarterRowFull [sampleQ1] "2024 Q1").1
        = Cell.str q :: List.replicate 12 (Cell.str "N/A") :=
  (c2_denial_constant [sampleQ1] "" "" "" ⟨2025, 6, 1⟩ 151).2.1
    (quarterRowFull [sampleQ1] "2024 Q1").1
    (by simp [slide4_data, target_quarters])

/-- C3: a target quarter (resp. year) with zero matching records yields, at
its exact enumeration position, the row `label :: 12 × "N/A"` (resp.
`year :: 10 × "N/A"`): the period label leads and every derived cell is the
sentinel, so no ratio is computed for that period. -/
theorem c3_empty_period_row (rs : List VisitRecord) (now : Date) (d : Int)
    (i : Nat) (q : String) (j : Nat) (y : Int)
    (hq : target_quarters.get? i = some q)
    (hqe : (quarterFilter rs q).isEmpty = true)
    (hy : ([2023, 2024, 2025] : List Int).get? j = some y)
    (hye : (yearFilter rs y now).isEmpty = true) :
    (slide4_data rs).get? i = some (Cell.str q :: List.replicate 12 (Cell.str "N/A"))
    ∧ (slide5_data rs now d).get? j
        = some (Cell.int y :: List.replicate 10 (Cell.str "N/A")) := by
  have hqe2 : quarterFilter rs q = [] := by simpa using hqe
  have hye2 : yearFilter rs y now = [] := by simpa using hye
  constructor
  · rw [slide4_data, List.get?_map, hq]
    simp [quarterRowFull, quarterRowOf, hqe2]
  · rw [slide5_data, List.get?_map, hy]
    simp [yearRowFull, yearRowOf, hye2]

/-- Witness for C3: the empty record set leaves 2024 Q1 and 2023 without
matching records. -/
theorem c3_witness :
    (slide4_data []).get? 0
      = some (Cell.str "2024 Q1" :: List.replicate 12 (Cell.str "N/A"))
    ∧ (slide5_data [] ⟨2025, 6, 1⟩ 151).get? 0
      = some (Cell.int 2023 :: List.replicate 10 (Cell.str "N/A")) :=
  c3_empty_period_row [] ⟨2025, 6, 1⟩ 151 0 "2024 Q1" 0 2023 rfl rfl rfl rfl

/-- Rounding an integer-valued rational is the identity. -/
theorem qround_intCast (n : ℤ) : qround ((n : ℚ)) = n := by
  unfold qround
  rw [add_comm, Int.floor_add_int]
  norm_num

/-- Two-decimal rendering is invariant under first rounding to two
decimals: `f"{x:.2f}"` and `f"{round(x, 2):.2f}"` agree. -/
theorem fmt2_round2 (q : ℚ) : fmt2 (round2 q) = fmt2 q := by
  have h : round2 q * 100 = ((qround (q * 100) : ℤ) : ℚ) := by
    unfold round2; field_simp
  simp only [fmt2]
  rw [h, qround_intCast]

unseal Rat.add Rat.mul Rat.inv in
/-- `f"{0:.2f}"` is `"0.00"`. -/
theorem fmt2_zero : fmt2 0 = "0.00" := by decide

/-- The guarded percentage pattern of lines 115–117, 127–128, 165–167
renders exactly the spec-side `pctSpec`. -/
theorem pct_eq_spec (num den : ℚ) :
    (if den = 0 then "0.00%" else fmt2 (num / den * 100) ++ "%") = pctSpec num den := by
  by_cases h : den = 0 <;> simp [pctSpec, h, fmt2_round2]

/-- The value-then-format pattern of lines 59–60 and 62–63 also renders
exactly the spec-side `pctSpec`. -/
theorem pct_eq_spec_preval (num den : ℚ) :
    fmt2 (if den = 0 then 0 else num / den * 100) ++ "%" = pctSpec num den := by
  by_cases h : den = 0 <;> simp [pctSpec, h, fmt2_round2, fmt2_zero]

/-- C5: every computed percentage cell — snapshot charges-submitted, gross
and net collection rates; quarterly charges-submitted, gross, net, billed
and unbilled shares; yearly charges-submitted, gross and net — is exactly
`"0.00%"` when its denominator is zero and otherwise
`num / den * 100` rounded to and formatted with two decimal digits. -/
theorem c5_percentages (rs : List VisitRecord) (v a1 a2 : String) (q : String)
    (now : Date) (d y : Int)
    (hq : (quarterFilter rs q).isEmpty = false)
    (hy : (yearFilter rs y now).isEmpty = false) :
    (kpi_data rs v a1 a2).1.get? 2
      = some ("Charges Submitted (%)",
          Cell.str (pctSpec (submittedCharges rs) (totalCharges rs)))
    ∧ (kpi_data rs v a1 a2).1.get? 4
      = some ("Gross Collection Rate (%)",
          Cell.str (pctSpec (totalPayments rs) (totalCharges rs)))
    ∧ (kpi_data rs v a1 a2).1.get? 5
      = some ("Net Collection Rate (%)",
          Cell.str (pctSpec (totalPayments rs) (totalExpected rs)))
    ∧ (quarterRowFull rs q).1.get? 3
      = some (Cell.str (pctSpec (submittedCharges (quarterFilter rs q))
          (totalCharges (quarterFilter rs q))))
    ∧ (quarterRowFull rs q).1.get? 5
      = some (Cell.str (pctSpec (totalPayments (quarterFilter rs q))
          (totalCharges (quarterFilter rs q))))
    ∧ (quarterRowFull rs q).1.get? 6
      = some (Cell.str (pctSpec (totalPayments (quarterFilter rs q))
          (totalExpected (quarterFilter rs q))))
    ∧ (quarterRowFull rs q).1.get? 9
      = some (Cell.str (pctSpec (billedAR (quarterFilter rs q))
          (billedAR (quarterFilter rs q) + unbilledAR (quarterFilter rs q))))
    ∧ (quarterRowFull rs q).1.get? 11
      = some (Cell.str (pctSpec (unbilledAR (quarterFilter rs q))
          (billedAR (quarterFilter rs q) + unbilledAR (quarterFilter rs q))))
    ∧ (yearRowFull rs now d y).1.get? 3
      = some (Cell.str (pctSpec (submittedCharges (yearFilter rs y now))
          (totalCharges (yearFilter rs y now))))
    ∧ (yearRowFull rs now d y).1.get? 5
      = some (Cell.str (pctSpec (totalPayments (yearFilter rs y now))
          (totalCharges (yearFilter rs y now))))
    ∧ (yearRowFull rs now d y).1.get? 6
      = some (Cell.str (pctSpec (totalPayments (yearFilter rs y now))
          (totalExpected (yearFilter rs y now)))) := by
  have hq2 : ¬(quarterFilter rs q = []) := by simpa using hq
  have hy2 : ¬(yearFilter rs y now = []) := by simpa using hy
  refine ⟨?_, ?_, ?_, ?_, ?_, ?_, ?_, ?_, ?_, ?_, ?_⟩ <;>
    simp [kpi_data, quarterRowFull, quarterRowOf, yearRowFull, yearRowOf,
      hq2, hy2, pct_eq_spec, pct_eq_spec_preval]

unseal Rat.add Rat.mul Rat.inv in
/-- Witness for C5 on the spec §8 example record (2024 Q1, year 2024):
100.00 % submitted, 90.00 % gross, 112.50 % net. -/
theorem c5_witness :
    (kpi_data [sampleQ1] "" "" "").1.get? 2
      = some ("Charges Submitted (%)",
          Cell.str (pctSpec (submittedCharges [sampleQ1]) (totalCharges [sampleQ1])))
    ∧ (kpi_data [sampleQ1] "" "" "").1.get? 4
      = some ("Gross Collection Rate (%)",
          Cell.str (pctSpec (totalPayments [sampleQ1]) (totalCharges [sampleQ1])))
    ∧ (kpi_data [sampleQ1] "" "" "").1.get? 5
      = some ("Net Collection Rate (%)",
          Cell.str (pctSpec (totalPayments [sampleQ1]) (totalExpected [sampleQ1])))
    ∧ (quarterRowFull [sampleQ1] "2024 Q1").1.get? 3
      = some (Cell.str (pctSpec (submittedCharges (quarterFilter [sampleQ1] "2024 Q1"))
          (totalCharges (quarterFilter [sampleQ1] "2024 Q1"))))
    ∧ (quarterRowFull [sampleQ1] "2024 Q1").1.get? 5
      = some (Cell.str (pctSpec (totalPayments (quarterFilter [sampleQ1] "2024 Q1"))
          (totalCharges (quarterFilter [sampleQ1] "2024 Q1"))))
    ∧ (quarterRowFull [sampleQ1] "2024 Q1").1.get? 6
      = some (Cell.str (pctSpec (totalPayments (quarterFilter [sampleQ1] "2024 Q1"))
          (totalExpected (quarterFilter [sampleQ1] "2024 Q1"))))
    ∧ (quarterRowFull [sampleQ1] "2024 Q1").1.get? 9
      = some (Cell.str (pctSpec (billedAR (quarterFilter [sampleQ1] "2024 Q1"))
          (billedAR (quarterFilter [sampleQ1] "2024 Q1")
            + unbilledAR (quarterFilter [sampleQ1] "2024 Q1"))))
    ∧ (quarterRowFull [sampleQ1] "2024 Q1").1.get? 11
      = some (Cell.str (pctSpec (unbilledAR (quarterFilter [sampleQ1] "2024 Q1"))
          (billedAR (quarterFilter [sampleQ1] "2024 Q1")
            + unbilledAR (quarterFilter [sampleQ1] "2024 Q1"))))
    ∧ (yearRowFull [sampleQ1] ⟨2025, 6, 1⟩ 151 2024).1.get? 3
      = some (Cell.str (pctSpec (submittedCharges (yearFilter [sampleQ1] 2024 ⟨2025, 6, 1⟩))
          (totalCharges (yearFilter [sampleQ1] 2024 ⟨2025, 6, 1⟩))))
    ∧ (yearRowFull [sampleQ1] ⟨2025, 6, 1⟩ 151 2024).1.get? 5
      = some (Cell.str (pctSpec (totalPayments (yearFilter [sampleQ1] 2024 ⟨2025, 6, 1⟩))
          (totalCharges (yearFilter [sampleQ1] 2024 ⟨2025, 6, 1⟩))))
    ∧ (yearRowFull [sampleQ1] ⟨2025, 6, 1⟩ 151 2024).1.get? 6
      = some (Cell.str (pctSpec (totalPayments (yearFilter [sampleQ1] 2024 ⟨2025, 6, 1⟩))
          (totalExpected (yearFilter [sampleQ1] 2024 ⟨2025, 6, 1⟩)))) :=
  c5_percentages [sampleQ1] "" "" "" "2024 Q1" ⟨2025, 6, 1⟩ 151 2024
    (by decide) (by decide)

/-- C9: the Snapshot days-in-AR row is independent of the elapsed-days
override and of the invocation time, and its average-daily-charges
denominator is the fixed constant 365: the cell always equals
`round(Σ balance * 365 / Σ charge)` (0 when charges are zero). -/
theorem c9_snapshot_365 (rs : List VisitRecord) (v a1 a2 din din2 : String)
    (now now2 : Date) :
    (generateReport rs v a1 a2 din now).kpi.get? 6
      = (generateReport rs v a1 a2 din2 now2).kpi.get? 6
    ∧ (generateReport rs v a1 a2 din now).kpi.get? 6
      = some ("Days in AR (DAR)",
          Cell.int (if totalCharges rs = 0 then 0
            else qround (totalBalance rs * 365 / totalCharges rs))) := by
  refine ⟨rfl, ?_⟩
  show (kpi_data rs v a1 a2).1.get? 6 = _
  by_cases hc : totalCharges rs = 0
  · simp [kpi_data, hc]
  · have h365 : totalCharges rs / (365 : ℚ) ≠ 0 :=
      div_ne_zero hc (by norm_num)
    simp only [kpi_data, hc]
    simp [hc, h365, div_div_eq_mul_div]

/-- Per-row visit counting: the quarter-match predicate of line 104. -/
theorem quarterFilter_cons_match (rs : List VisitRecord) (r : VisitRecord)
    (q : String) (hr : get_quarter_label r.visitDate = some q) :
    (quarterFilter (r :: rs) q).length = (quarterFilter rs q).length + 1 := by
  simp [quarterFilter, List.filter_cons, hr]

/-- C10: the visits figure of every non-empty Quarterly and Yearly row is the
raw number of matching rows (`len(q_df)` / `len(df_y)`): one more for each
matching record regardless of its `Visit ID`, and invariant under rewriting
every `Visit ID` to a single constant (so duplicates are never collapsed). -/
theorem c10_visits_row_count (rs : List VisitRecord) (q : String) (now : Date)
    (d y : Int) (r : VisitRecord) (s : String)
    (hq : (quarterFilter rs q).isEmpty = false)
    (hy : (yearFilter rs y now).isEmpty = false)
    (hr : get_quarter_label r.visitDate = some q) :
    (quarterRowFull rs q).1.get? 1 = some (Cell.nat (quarterFilter rs q).length)
    ∧ (yearRowFull rs now d y).1.get? 1
        = some (Cell.nat (yearFilter rs y now).length)
    ∧ (quarterFilter (r :: rs) q).length = (quarterFilter rs q).length + 1
    ∧ (quarterFilter (rs.map (fun t => { t with visitId := s })) q).length
        = (quarterFilter rs q).length := by
  have hq2 : ¬(quarterFilter rs q = []) := by simpa using hq
  have hy2 : ¬(yearFilter rs y now = []) := by simpa using hy
  refine ⟨?_, ?_, quarterFilter_cons_match rs r q hr, ?_⟩
  · simp [quarterRowFull, quarterRowOf, hq2]
  · simp [yearRowFull, yearRowOf, hy2]
  · simp only [quarterFilter, List.filter_map, List.length_map]
    rfl

unseal Rat.add Rat.mul Rat.inv in
/-- Witness for C10: a second record sharing `sampleQ1`'s `Visit ID` still
raises the 2024 Q1 row count from 1 to 2. -/
theorem c10_witness :
    (quarterRowFull [sampleQ1] "2024 Q1").1.get? 1
        = some (Cell.nat (quarterFilter [sampleQ1] "2024 Q1").length)
    ∧ (yearRowFull [sampleQ1] ⟨2025, 6, 1⟩ 151 2024).1.get? 1
        = some (Cell.nat (yearFilter [sampleQ1] 2024 ⟨2025, 6, 1⟩).length)
    ∧ (quarterFilter (sampleQ1dup :: [sampleQ1]) "2024 Q1").length
        = (quarterFilter [sampleQ1] "2024 Q1").length + 1
    ∧ (quarterFilter ([sampleQ1].map (fun t => { t with visitId := "x" })) "2024 Q1").length
        = (quarterFilter [sampleQ1] "2024 Q1").length :=
  c10_visits_row_count [sampleQ1] "2024 Q1" ⟨2025, 6, 1⟩ 151 2024 sampleQ1dup "x"
    (by decide) (by decide) (by decide)

/-- No Snapshot division site ever pairs a satisfied guard with a zero
denominator: each percentage guard *is* its denominator's non-vanishing, and
the average-daily-charges denominator is the constant 365. -/
theorem kpi_dbz_false (rs : List VisitRecord) (v a1 a2 : String) :
    (kpi_data rs v a1 a2).2 = false := by
  simp [kpi_data]

/-- A quarterly row performs no zero-denominator division as long as the
quarter's day count is nonzero. -/
theorem quarterRow_dbz_false (s : List VisitRecord) (q : String)
    (hq : days_in_quarter q ≠ 0) : (quarterRowOf s q).2 = false := by
  by_cases h : s = []
  · simp [quarterRowOf, h]
  · simp [quarterRowOf, h, hq]

/-- The Slide 4 loop performs no zero-denominator division: each of the seven
target quarters spans at least 90 days. -/
theorem slide4_dbz_false (rs : List VisitRecord) : slide4_dbz rs = false := by
  have h1 : days_in_quarter "2024 Q1" ≠ 0 := by decide
  have h2 : days_in_quarter "2024 Q2" ≠ 0 := by decide
  have h3 : days_in_quarter "2024 Q3" ≠ 0 := by decide
  have h4 : days_in_quarter "2024 Q4" ≠ 0 := by decide
  have h5 : days_in_quarter "2025 Q1" ≠ 0 := by decide
  have h6 : days_in_quarter "2025 Q2" ≠ 0 := by decide
  have h7 : days_in_quarter "2025 Q3" ≠ 0 := by decide
  simp only [slide4_dbz, target_quarters, List.any_cons, List.any_nil, quarterRowFull]
  rw [quarterRow_dbz_false _ _ h1, quarterRow_dbz_false _ _ h2,
    quarterRow_dbz_false _ _ h3, quarterRow_dbz_false _ _ h4,
    quarterRow_dbz_false _ _ h5, quarterRow_dbz_false _ _ h6,
    quarterRow_dbz_false _ _ h7]
  rfl

/-- A yearly row performs no zero-denominator division as long as the year's
day count is nonzero. -/
theorem yearRow_dbz_false (s : List VisitRecord) (y dy : Int)
    (hd : dy ≠ 0) : (yearRowOf s y dy).2 = false := by
  by_cases h : s = []
  · simp [yearRowOf, h]
  · simp [yearRowOf, h, hd]

/-- The Slide 5 loop performs no zero-denominator division when the
2025 elapsed-days value is nonzero (2023 and 2024 use 365 and 366). -/
theorem slide5_dbz_false (rs : List VisitRecord) (now : Date) (d : Int)
    (hd : d ≠ 0) : slide5_dbz rs now d = false := by
  simp only [slide5_dbz, List.any_cons, List.any_nil, yearRowFull]
  norm_num
  rw [yearRow_dbz_false _ _ _ (by norm_num : (365 : Int) ≠ 0),
    yearRow_dbz_false _ _ _ (by norm_num : (366 : Int) ≠ 0),
    yearRow_dbz_false _ _ _ hd]
  simp

/-- C1 (amended): provided the 2025 elapsed-days value is nonzero, every
division of the whole computation whose denominator is zero is replaced by
the `0.00%` / `0` sentinel (no zero-denominator division is ever performed);
without that proviso the yearly average-daily-charges site, whose guard is
the *numerator*, divides by a zero day count (see `c1_counterexample`). -/
theorem c1_divzero_guarded (rs : List VisitRecord)
    (v a1 a2 din : String) (now : Date)
    (h : days_2025_of din now ≠ 0) :
    (generateReport rs v a1 a2 din now).dbz = false := by
  simp [generateReport, kpi_dbz_false, slide4_dbz_false,
    slide5_dbz_false rs now (days_2025_of din now) h]

/-- Witness for C1 (amended): override `"5"` parses to 5 ≠ 0 and the
computation performs no zero-denominator division. -/
theorem c1_witness :
    (generateReport [] "" "" "" "5" ⟨2025, 1, 1⟩).dbz = false :=
  c1_divzero_guarded [] "" "" "" "5" ⟨2025, 1, 1⟩ (by decide)

unseal Rat.add Rat.mul Rat.inv in
/-- C1 counterexample: with the elapsed-days override `"0"` (which parses to
0) and one 2025 record with charge 100, the yearly average-daily-charges
division `charges / days_in_year` is performed with denominator 0 — its guard
only checks `charges` — so it is *not* replaced by the sentinel (numpy
evaluates it to infinity under a warning rather than raising). -/
theorem c1_counterexample :
    (generateReport [sample2025] "" "" "" "0" ⟨2025, 6, 1⟩).dbz = true := by
  decide
